import Mathlib

/-!
Verification of the lynq-js client-side telemetry engine (src/unnamed/part_000).

Shallow embedding conventions:
 * JavaScript numbers that the tracked code uses (timestamps, metric values,
   durations) are modelled as `ℚ`; every arithmetic operation the code performs
   on them is exact on the inputs the claims examine.
 * `JsNum := Option ℚ` models a JavaScript number that may be `NaN`
   (`none` = NaN); `Date.now() >= NaN` is `false`, which `isSessionExpired`
   reproduces.
 * A value read from `localStorage` is `Option _` (`none` = the key is absent).
   The persisted session expiration is modelled by the `parseInt` image of the
   stored string: `some (some v)` for a numeric string, `some none` for a
   truthy non-numeric string (parseInt gives NaN), `none` when the key is
   absent or the stored string is empty (both falsy in the code's check).
 * Fallible `localStorage.setItem` calls take an explicit success flag; a
   `false` flag models the call throwing (quota), which the surrounding
   `try { } catch { }` swallows after skipping the rest of the `try` block.
 * Event dispatch (`navigator.sendBeacon`) is modelled by returning the list
   of event names dispatched; fire-and-forget delivery has no other effect.
-/

namespace Lynq

/-- CONFIG.SESSION_DURATION = 10 * 60 * 1000 ms. -/
def SESSION_DURATION : ℚ := 10 * 60 * 1000

/-- `Math.max(a, b)` on the (non-NaN) numbers the code applies it to. -/
def jsMax (a b : ℚ) : ℚ := if a ≤ b then b else a

/-- A JavaScript number that may be NaN (`none` = NaN). -/
abbrev JsNum := Option ℚ

/-- The event names of CONFIG.EVENTS that the tracked code dispatches. -/
inductive EvName where
  | pageView
  | sessionStart
  | sessionEnd
  | customEvent
  | initialCustomEvent
  | webVitals
deriving DecidableEq, Repr

/-- Occurrences of an event name in a dispatch list. -/
def countEv (a : EvName) : List EvName → ℕ
  | [] => 0
  | b :: l => (if b = a then 1 else 0) + countEv a l

/-! ## Cumulative Layout Shift (observeCLS / updateCLS / calculateMaxSessionGap) -/

/-- A layout-shift performance entry (the fields the code reads). -/
structure ShiftEntry where
  startTime : ℚ
  value : ℚ
  hadRecentInput : Bool
deriving DecidableEq, Repr

/-- `session.reduce((sum, e) => sum + e.value, 0)`. -/
def sessionValueSum (session : List ShiftEntry) : ℚ :=
  session.foldl (fun sum e => sum + e.value) 0

/-- One iteration of the `entries.forEach` loop in `calculateMaxSessionGap`:
the accumulator is `(maxSessionValue, session, sessionStart)`. -/
def clsStep : (ℚ × List ShiftEntry × ℚ) → ShiftEntry → (ℚ × List ShiftEntry × ℚ)
  | (maxSessionValue, session, sessionStart), e =>
    if session = [] ∨ e.startTime - sessionStart < 1000 then
      (maxSessionValue, session ++ [e], sessionStart)
    else
      (jsMax maxSessionValue (sessionValueSum session), [e], e.startTime)

/-- The value `calculateMaxSessionGap` returns from the loop's final state. -/
def clsFinish : (ℚ × List ShiftEntry × ℚ) → ℚ
  | (maxSessionValue, session, _) => jsMax maxSessionValue (sessionValueSum session)

/-- `calculateMaxSessionGap(entries)`: `maxSessionValue`, `session` and
`sessionStart` start at `0`, `[]`, `0`; `sessionStart` is only assigned when a
new grouping is opened by an entry that fails the gap test. -/
def calculateMaxSessionGap (entries : List ShiftEntry) : ℚ :=
  clsFinish (entries.foldl clsStep (0, [], 0))

/-- The groupings the code's loop actually forms, written out as lists:
same join condition (`session = [] ∨ e.startTime - sessionStart < 1000`,
with the first grouping's tracked start fixed at the initial `sessionStart`). -/
def codeGroupsAux (sessionStart : ℚ) (session : List ShiftEntry) :
    List ShiftEntry → List (List ShiftEntry)
  | [] => [session]
  | e :: rest =>
    if session = [] ∨ e.startTime - sessionStart < 1000 then
      codeGroupsAux sessionStart (session ++ [e]) rest
    else
      session :: codeGroupsAux e.startTime [e] rest

/-- Maximum of grouping sums, seeded with `m` (the code seeds `0`). -/
def groupMaxFrom (m : ℚ) (gs : List (List ShiftEntry)) : ℚ :=
  gs.foldl (fun a g => jsMax a (sessionValueSum g)) m

/-- The amended reading of the spec's CLS rule, as a grouping-based
formula: groupings formed greedily with the tracked start `0` for the first
grouping, strict `< 1000` join test, new grouping start = the entry's
startTime; CLS = the maximum (at least 0) of the grouping sums. -/
def amendedCLS (entries : List ShiftEntry) : ℚ :=
  groupMaxFrom 0 (codeGroupsAux 0 [] entries)

/-- The claim's grouping rule, word for word: a grouping's start is its first
entry's startTime (also for the first grouping), and an entry joins the
current grouping exactly when the gap from that start does not exceed
1000 ms. -/
def claimGroupsAux (start : ℚ) (cur : List ShiftEntry) :
    List ShiftEntry → List (List ShiftEntry)
  | [] => [cur]
  | e :: rest =>
    if e.startTime - start ≤ 1000 then claimGroupsAux start (cur ++ [e]) rest
    else cur :: claimGroupsAux e.startTime [e] rest

/-- CLS as the claim states it: maximum over the claim's groupings of the sum
of entry values within a grouping. -/
def claimCLS : List ShiftEntry → ℚ
  | [] => 0
  | e :: rest => groupMaxFrom 0 (claimGroupsAux e.startTime [e] rest)

/-! ## The metric state of PerformanceTracker -/

/-- One record pushed by `setupResourceTracking` (a filtered resource entry). -/
structure ResourceRecord where
  name : String
  rtype : String
  duration : ℚ
  transferSize : ℚ
  startTime : ℚ
  protocol : String
deriving DecidableEq, Repr

/-- `this.metrics` of PerformanceTracker. `resourceCount` is the property
`collectPerformanceMetrics` adds before the final send (0 until then). -/
structure Metrics where
  lcp : ℚ
  cls : ℚ
  inp : ℚ
  fcp : ℚ
  ttfb : ℚ
  tbt : ℚ
  dcl : ℚ
  load : ℚ
  tti : ℚ
  resources : List ResourceRecord
  interactionCount : ℕ
  totalJSHeapSize : ℚ
  usedJSHeapSize : ℚ
  resourceCount : ℕ
deriving DecidableEq, Repr

/-- PerformanceTracker's mutable state: the metrics object, the
`this.interactionTimes` array, the `sessionEntries` closure variable of
`observeCLS`, the `totalBlockingTime` closure variable of `observeLongTasks`,
and the one-shot `finalMetricsSent` flag. -/
structure PerfState where
  metrics : Metrics
  interactionTimes : List ℚ
  clsEntries : List ShiftEntry
  tbtTotal : ℚ
  finalMetricsSent : Bool
deriving DecidableEq, Repr

/-- The metrics object as the constructor initializes it. -/
def initialMetrics : Metrics :=
  { lcp := 0, cls := 0, inp := 0, fcp := 0, ttfb := 0, tbt := 0,
    dcl := 0, load := 0, tti := 0, resources := [], interactionCount := 0,
    totalJSHeapSize := 0, usedJSHeapSize := 0, resourceCount := 0 }

/-- PerformanceTracker's state as the constructor initializes it. -/
def initialPerf : PerfState :=
  { metrics := initialMetrics, interactionTimes := [], clsEntries := [],
    tbtTotal := 0, finalMetricsSent := false }

/-! ## CLS stream (observeCLS's callback together with updateCLS) -/

/-- `updateCLS(sessionEntries, entry)`: appends the entry and recomputes
`this.metrics.cls` from the full accumulated history. -/
def updateCLS (p : PerfState) (e : ShiftEntry) : PerfState :=
  let updatedEntries := p.clsEntries ++ [e]
  { p with clsEntries := updatedEntries,
           metrics := { p.metrics with cls := calculateMaxSessionGap updatedEntries } }

/-- One entry of `observeCLS`'s callback loop: entries with `hadRecentInput`
are skipped entirely. -/
def observeCLSEntry (p : PerfState) (e : ShiftEntry) : PerfState :=
  if e.hadRecentInput then p else updateCLS p e

/-- The `observeCLS` callback over a stream of layout-shift entries in
arrival order. -/
def observeCLSBatch (p : PerfState) (entries : List ShiftEntry) : PerfState :=
  entries.foldl observeCLSEntry p

/-! ## INP (observeINP) -/

/-- Insertion of one element into an ascending list. -/
def insertAsc (x : ℚ) : List ℚ → List ℚ
  | [] => [x]
  | y :: ys => if x ≤ y then x :: y :: ys else y :: insertAsc x ys

/-- `[...times].sort((a, b) => a - b)`: ascending numeric sort. -/
def sortAsc (l : List ℚ) : List ℚ := l.foldr insertAsc []

/-- The value `observeINP` stores in `this.metrics.inp` for a history `ts`:
the element at index `Math.floor(ts.length * 0.75)` of the ascending sort
(`0.75 * n` is exact in floating point for every entry count that can occur,
so the index is `3 * n / 4` rounded down). -/
def percentileINP (ts : List ℚ) : ℚ :=
  (sortAsc ts).getD (3 * ts.length / 4) 0

/-- `observeINP`'s callback on one batch of event-timing entries (only their
durations are read): counts the interactions, appends the durations to
`this.interactionTimes`, and when the history is non-empty recomputes
`this.metrics.inp` from the sorted full history. -/
def observeINP (p : PerfState) (durations : List ℚ) : PerfState :=
  let times := p.interactionTimes ++ durations
  let m1 := { p.metrics with interactionCount := p.metrics.interactionCount + durations.length }
  if times.length > 0 then
    { p with interactionTimes := times,
             metrics := { m1 with inp := (sortAsc times).getD (3 * times.length / 4) 0 } }
  else
    { p with interactionTimes := times, metrics := m1 }

/-! ## Other observers (paint, LCP, long tasks, resources, navigation) -/

/-- `observePaint`'s callback on one paint entry. -/
def observePaintEntry (entryName : String) (t : ℚ) (p : PerfState) : PerfState :=
  if entryName = "first-contentful-paint" then
    { p with metrics := { p.metrics with fcp := t } }
  else p

/-- `observeLCP`'s callback on one largest-contentful-paint entry:
keep the maximum startTime seen. -/
def observeLCPEntry (t : ℚ) (p : PerfState) : PerfState :=
  if p.metrics.lcp < t then { p with metrics := { p.metrics with lcp := t } } else p

/-- `observeLongTasks`'s callback on one long-task entry. -/
def observeLongTask (d : ℚ) (p : PerfState) : PerfState :=
  let blockingTime := d - 50
  if 0 < blockingTime then
    { p with tbtTotal := p.tbtTotal + blockingTime,
             metrics := { p.metrics with tbt := p.tbtTotal + blockingTime } }
  else p

/-- `setupResourceTracking`'s callback on one resource entry. -/
def observeResource (r : ResourceRecord) (p : PerfState) : PerfState :=
  if 0 < r.transferSize ∧ 100 < r.duration then
    { p with metrics := { p.metrics with resources := p.metrics.resources ++ [r] } }
  else p

/-- `collectNavigationMetrics` from the navigation timing record. -/
def collectNavigationMetrics (dclT loadT ttfbT ttiT : ℚ) (p : PerfState) : PerfState :=
  { p with metrics := { p.metrics with dcl := dclT, load := loadT, ttfb := ttfbT, tti := ttiT } }

/-! ## Session state (AnalyticsTracker) -/

/-- The two session-related persisted entries, as the code reads them back:
`sessionId` is the stored string (`none` = key absent), `expiration` is the
`parseInt` image of the stored expiration (`none` = key absent or stored
string empty, `some none` = truthy non-numeric string, NaN). -/
structure Store where
  sessionId : Option String
  expiration : Option JsNum
deriving DecidableEq, Repr

/-- `this.session`: `expirationTime` is a JavaScript number and may be NaN. -/
structure Session where
  sessionId : String
  expirationTime : JsNum
  startTime : ℚ
deriving DecidableEq, Repr

/-- `isSessionExpired(expirationTime)` = `Date.now() >= parseInt(expirationTime)`;
every comparison with NaN is false. -/
def isSessionExpired (now : ℚ) (exp : JsNum) : Bool :=
  match exp with
  | none => false
  | some v => decide (v ≤ now)

/-- `!sessionId` on the value `localStorage.getItem` returned:
truthy only for a present, non-empty string. -/
def sidMissing : Option String → Bool
  | none => true
  | some s => decide (s = "")

/-- The condition of `initializeSession`'s new-session branch:
`!sessionId || !expirationTime || this.isSessionExpired(expirationTime)`. -/
def needsNewSession (st : Store) (now : ℚ) : Bool :=
  sidMissing st.sessionId ||
    (match st.expiration with
     | none => true
     | some e => isSessionExpired now e)

/-- What one run of `initializeSession` leaves behind: the persisted store, the
in-memory session, the events its `trackEvent` calls dispatched (in order), and
whether the refresh interval was installed (the `try` block's last statement). -/
structure InitResult where
  store : Store
  session : Option Session
  events : List EvName
  intervalSet : Bool
deriving DecidableEq, Repr

/-- `initializeSession()`. `nsid` is the freshly generated session id
(`generateSessionId()`), `qn` the length of the pre-init `window.lynqQueue`,
`ok1`/`ok2` whether the two `setItem` calls succeed; a failing `setItem`
throws, so the rest of the `try` block is skipped and the `catch {}` swallows
the error. Each dispatched event goes through `trackEvent`, whose
`!this.session?.sessionId` guard drops events when the session id is the empty
string; the queue is flushed after the branch's own event, tagged
`initial-custom-event` for a new session and `custom-event` for a resumed
one. -/
def initializeSession (st : Store) (now : ℚ) (nsid : String) (qn : ℕ)
    (ok1 ok2 : Bool) : InitResult :=
  if needsNewSession st now then
    if ok1 then
      let st1 : Store := { st with sessionId := some nsid }
      if ok2 then
        let newExpirationTime := now + SESSION_DURATION
        let st2 : Store := { st1 with expiration := some (some newExpirationTime) }
        { store := st2,
          session := some ⟨nsid, some newExpirationTime, now⟩,
          events := if nsid = "" then [] else
            .sessionStart :: List.replicate qn .initialCustomEvent,
          intervalSet := true }
      else
        { store := st1, session := none, events := [], intervalSet := false }
    else
      { store := st, session := none, events := [], intervalSet := false }
  else
    let sid := st.sessionId.getD ""
    { store := st,
      session := some ⟨sid, st.expiration.getD none, now⟩,
      events := if sid = "" then [] else
        .pageView :: List.replicate qn .customEvent,
      intervalSet := true }

/-! ## The whole tracker (AnalyticsTracker + its PerformanceTracker) -/

/-- The mutable state of the tracker pair after construction. -/
structure TrackerState where
  isDestroyed : Bool
  session : Option Session
  store : Store
  perf : PerfState
  intervalSet : Bool
  observersConnected : Bool
  hashListenerAttached : Bool
  mutationConnected : Bool
  initialPathname : String
  currentPathname : String
deriving DecidableEq, Repr

/-- What the host exposes when `collectPerformanceMetrics` runs:
`performance.memory` (if present) and the full resource-entry count. -/
structure Env where
  memAvailable : Bool
  totalJSHeapSize : ℚ
  usedJSHeapSize : ℚ
  resourceEntryCount : ℕ
deriving DecidableEq, Repr

/-- `collectPerformanceMetrics()`: memory usage if available, plus the
resource-entry count. -/
def collectPerformanceMetrics (env : Env) (m : Metrics) : Metrics :=
  let m1 := if env.memAvailable then
      { m with totalJSHeapSize := env.totalJSHeapSize,
               usedJSHeapSize := env.usedJSHeapSize }
    else m
  { m1 with resourceCount := env.resourceEntryCount }

/-- `trackEvent(eventName, ...)` reduced to its dispatch behaviour: drops the
event when `this.isDestroyed`, or when the session is unset or its id is the
empty string after the one 100 ms grace wait (the session is only ever
assigned during construction, so a session unset when `trackEvent` starts its
wait is still unset after it); otherwise dispatches one event. The state is
never modified. -/
def trackEvent (s : TrackerState) (e : EvName) : TrackerState × List EvName :=
  if s.isDestroyed then (s, [])
  else
    match s.session with
    | none => (s, [])
    | some ss => if ss.sessionId = "" then (s, []) else (s, [e])

/-- `sendFinalMetrics()`: one-shot behind `finalMetricsSent`; sets the flag,
collects the last snapshot, then hands one `web-vitals` event to
`trackEvent`. -/
def sendFinalMetrics (env : Env) (s : TrackerState) : TrackerState × List EvName :=
  if s.perf.finalMetricsSent then (s, [])
  else
    trackEvent
      { s with perf := { s.perf with
          finalMetricsSent := true,
          metrics := collectPerformanceMetrics env s.perf.metrics } }
      .webVitals

/-- `trackPageView()`: guarded by `isDestroyed`, dispatches one `page-view`
through `trackEvent` and records the current pathname. -/
def trackPageView (s : TrackerState) : TrackerState × List EvName :=
  if s.isDestroyed then (s, [])
  else
    let (s1, d) := trackEvent s .pageView
    ({ s1 with initialPathname := s1.currentPathname }, d)

/-- `refreshSession()`: a no-op unless the document is visible and the tracker
is not destroyed; then computes the new expiration and attempts the one
`setItem` — only when it succeeds (`writeOk`) is the in-memory expiration
assigned (a throwing `setItem` skips that assignment and is swallowed by the
`catch {}`). Dispatches nothing. -/
def refreshSession (s : TrackerState) (docVisible : Bool) (now : ℚ)
    (writeOk : Bool) : TrackerState × List EvName :=
  if docVisible && !s.isDestroyed then
    if writeOk then
      ({ s with
          store := { s.store with expiration := some (some (now + SESSION_DURATION)) },
          session := s.session.map
            (fun ss => { ss with expirationTime := some (now + SESSION_DURATION) }) }, [])
    else (s, [])
  else (s, [])

/-- `AnalyticsTracker.destroy()`: sets `isDestroyed` first, clears the refresh
interval, removes the hashchange listener, disconnects the mutation observer,
then `performanceTracker.destroy()` disconnects the performance observers and
calls `sendFinalMetrics()`. -/
def destroyTracker (env : Env) (s : TrackerState) : TrackerState × List EvName :=
  sendFinalMetrics env
    { s with isDestroyed := true, intervalSet := false,
             hashListenerAttached := false, mutationConnected := false,
             observersConnected := false }

/-! ## The event-loop callbacks as a step relation -/

/-- Everything the host's event loop can feed the tracker after
construction: caller `track()` calls, the refresh timer, navigation signals,
the page-hidden / page-unload triggers, and performance-observer batches. -/
inductive Op where
  | callerTrack (e : EvName)
  | timerRefresh (docVisible : Bool) (now : ℚ) (writeOk : Bool)
  | hashChange
  | domMutation (path : String)
  | pageHidden (env : Env)
  | pageUnload (env : Env)
  | paintEntry (entryName : String) (t : ℚ)
  | lcpEntry (t : ℚ)
  | layoutShift (entries : List ShiftEntry)
  | interactionBatch (durations : List ℚ)
  | longTask (d : ℚ)
  | resourceEntry (r : ResourceRecord)
  | navTimings (dclT loadT ttfbT ttiT : ℚ)

/-- A performance-observer callback only fires while its observer is
connected; it never dispatches. -/
def onPerf (s : TrackerState) (f : PerfState → PerfState) : TrackerState × List EvName :=
  (if s.observersConnected then { s with perf := f s.perf } else s, [])

/-- One event-loop callback. `pageUnload` runs both `beforeunload` listeners
in registration order: the PerformanceTracker's final flush, then the
`session-end` dispatch (that listener is never removed, but `trackEvent`'s
destroyed check guards it). -/
def step (s : TrackerState) : Op → TrackerState × List EvName
  | .callerTrack e => trackEvent s e
  | .timerRefresh vis now ok =>
      if s.intervalSet then refreshSession s vis now ok else (s, [])
  | .hashChange => if s.hashListenerAttached then trackPageView s else (s, [])
  | .domMutation path =>
      let s1 := { s with currentPathname := path }
      if s1.mutationConnected then
        if !s1.isDestroyed && decide (s1.currentPathname ≠ s1.initialPathname) then
          trackPageView s1
        else (s1, [])
      else (s1, [])
  | .pageHidden env => sendFinalMetrics env s
  | .pageUnload env =>
      ((trackEvent (sendFinalMetrics env s).1 .sessionEnd).1,
        (sendFinalMetrics env s).2 ++ (trackEvent (sendFinalMetrics env s).1 .sessionEnd).2)
  | .paintEntry entryName t => onPerf s (observePaintEntry entryName t)
  | .lcpEntry t => onPerf s (observeLCPEntry t)
  | .layoutShift entries => onPerf s (fun p => observeCLSBatch p entries)
  | .interactionBatch durations => onPerf s (fun p => observeINP p durations)
  | .longTask d => onPerf s (observeLongTask d)
  | .resourceEntry r => onPerf s (observeResource r)
  | .navTimings a b c d => onPerf s (collectNavigationMetrics a b c d)

/-- A sequence of event-loop callbacks, collecting every dispatched event. -/
def runOps (s : TrackerState) : List Op → TrackerState × List EvName
  | [] => (s, [])
  | op :: rest =>
      ((runOps (step s op).1 rest).1, (step s op).2 ++ (runOps (step s op).1 rest).2)

/-- A sequence of final-flush triggers (page hidden / page unload), each one
a call of `sendFinalMetrics`. -/
def runFinalTriggers (s : TrackerState) : List Env → TrackerState × List EvName
  | [] => (s, [])
  | env :: rest =>
      ((runFinalTriggers (sendFinalMetrics env s).1 rest).1,
        (sendFinalMetrics env s).2 ++ (runFinalTriggers (sendFinalMetrics env s).1 rest).2)

/-! ## Referrer classification (trackEvent's payload composition) -/

/-- `document.referrer.startsWith(window.location.origin)`. -/
def jsStartsWith (s pre : String) : Bool := pre.data.isPrefixOf s.data

/-- The `referrer` local of `trackEvent`. -/
def classifyReferrer (docReferrer origin : String) : String :=
  if jsStartsWith docReferrer origin then "Direct" else docReferrer

/-- The payload's `referrer` field: `referrer || "Direct"`. -/
def composedReferrer (docReferrer origin : String) : String :=
  let r := classifyReferrer docReferrer origin
  if r = "" then "Direct" else r

/-- Splits a character list on a separator (no separator characters kept). -/
def splitChars (sep : Char) (l : List Char) : List (List Char) :=
  l.foldr (fun c acc =>
    match acc with
    | [] => [[c]]
    | g :: gs => if c = sep then [] :: g :: gs else (c :: g) :: gs) [[]]

/-- Modelled from the spec: the origin of a referrer URL, for the spec's
notion that a referrer "shares the page's origin" — the scheme and host
part, `scheme://host`, of the URL string. -/
def urlOrigin (url : String) : String :=
  match splitChars '/' url.data with
  | scheme :: [] :: host :: _ => String.mk (scheme ++ ['/', '/'] ++ host)
  | _ => url

/-- The referrer field exactly as the claim states it: "Direct" when the
referrer is absent (empty) or has the same origin as the page, verbatim
otherwise. -/
def claimReferrerField (docReferrer origin : String) : String :=
  if docReferrer = "" ∨ urlOrigin docReferrer = origin then "Direct" else docReferrer


/-! ## Concrete states for witnesses and counterexamples -/

/-- A tracker shortly after construction: live session, nothing destroyed,
final metrics not yet sent. -/
def readyTracker : TrackerState :=
  { isDestroyed := false,
    session := some ⟨"s1", some 999999, 0⟩,
    store := { sessionId := some "s1", expiration := some (some 999999) },
    perf := initialPerf,
    intervalSet := true, observersConnected := true,
    hashListenerAttached := true, mutationConnected := true,
    initialPathname := "/", currentPathname := "/" }

/-- The same tracker after its final-metrics flush has already fired. -/
def sentTracker : TrackerState :=
  { readyTracker with perf := { initialPerf with finalMetricsSent := true } }

/-- A host snapshot for `collectPerformanceMetrics`. -/
def sampleEnv : Env :=
  { memAvailable := true, totalJSHeapSize := 1000, usedJSHeapSize := 500,
    resourceEntryCount := 3 }

/-! ## Supporting lemmas -/

theorem countEv_replicate (a b : EvName) (n : ℕ) :
    countEv a (List.replicate n b) = if b = a then n else 0 := by
  induction n with
  | zero => simp [countEv]
  | succ n ih =>
    simp only [List.replicate, countEv, ih]
    split <;> simp [Nat.succ_eq_add_one, Nat.add_comm]

theorem clsFold_groups (rest : List ShiftEntry) :
    ∀ (m : ℚ) (session : List ShiftEntry) (start : ℚ),
      clsFinish (rest.foldl clsStep (m, session, start)) =
        groupMaxFrom m (codeGroupsAux start session rest) := by
  induction rest with
  | nil => intro m session start; simp [clsFinish, codeGroupsAux, groupMaxFrom]
  | cons e rest ih =>
    intro m session start
    by_cases h : session = [] ∨ e.startTime - start < 1000
    · simp only [List.foldl_cons, clsStep, codeGroupsAux, if_pos h]
      exact ih m (session ++ [e]) start
    · simp only [List.foldl_cons, clsStep, codeGroupsAux, if_neg h]
      rw [ih (jsMax m (sessionValueSum session)) [e] e.startTime]
      simp [groupMaxFrom]

theorem calculateMaxSessionGap_eq_amendedCLS (entries : List ShiftEntry) :
    calculateMaxSessionGap entries = amendedCLS entries :=
  clsFold_groups entries 0 [] 0

theorem observeCLSBatch_invariant (entries : List ShiftEntry) :
    ∀ p : PerfState, p.metrics.cls = calculateMaxSessionGap p.clsEntries →
      (observeCLSBatch p entries).clsEntries
          = p.clsEntries ++ entries.filter (fun e => !e.hadRecentInput) ∧
      (observeCLSBatch p entries).metrics.cls
          = calculateMaxSessionGap ((observeCLSBatch p entries).clsEntries) := by
  induction entries with
  | nil => intro p hp; simpa [observeCLSBatch] using hp
  | cons e rest ih =>
    intro p hp
    by_cases he : e.hadRecentInput
    · have := ih p hp
      simpa [observeCLSBatch, observeCLSEntry, he, List.filter_cons] using this
    · have hinv : (updateCLS p e).metrics.cls
          = calculateMaxSessionGap ((updateCLS p e).clsEntries) := by
        simp [updateCLS]
      have := ih (updateCLS p e) hinv
      simpa [observeCLSBatch, observeCLSEntry, he, updateCLS, List.filter_cons] using this

theorem observeINP_times (p : PerfState) (durations : List ℚ) :
    (observeINP p durations).interactionTimes = p.interactionTimes ++ durations := by
  unfold observeINP
  dsimp only
  split <;> rfl

theorem trackEvent_fst (s : TrackerState) (e : EvName) : (trackEvent s e).1 = s := by
  unfold trackEvent
  split
  · rfl
  · split
    · rfl
    · split <;> rfl

theorem trackEvent_len (s : TrackerState) (e : EvName) : (trackEvent s e).2.length ≤ 1 := by
  unfold trackEvent
  split
  · simp
  · split
    · simp
    · split <;> simp

theorem trackEvent_destroyed (s : TrackerState) (e : EvName)
    (h : s.isDestroyed = true) : trackEvent s e = (s, []) := by
  simp [trackEvent, h]

theorem sendFinalMetrics_fst_isDestroyed (env : Env) (s : TrackerState) :
    (sendFinalMetrics env s).1.isDestroyed = s.isDestroyed := by
  unfold sendFinalMetrics
  split
  · rfl
  · rw [trackEvent_fst]

theorem sendFinalMetrics_sent (env : Env) (s : TrackerState)
    (h : s.perf.finalMetricsSent = true) : sendFinalMetrics env s = (s, []) := by
  simp [sendFinalMetrics, h]

theorem sendFinalMetrics_flag (env : Env) (s : TrackerState) :
    (sendFinalMetrics env s).1.perf.finalMetricsSent = true := by
  unfold sendFinalMetrics
  split
  · rename_i h; exact h
  · rw [trackEvent_fst]

theorem sendFinalMetrics_destroyed_dispatch (env : Env) (s : TrackerState)
    (h : s.isDestroyed = true) : (sendFinalMetrics env s).2 = [] := by
  unfold sendFinalMetrics
  split
  · rfl
  · refine congrArg Prod.snd (trackEvent_destroyed _ _ ?_)
    exact h

theorem sendFinalMetrics_len (env : Env) (s : TrackerState) :
    (sendFinalMetrics env s).2.length ≤ 1 := by
  unfold sendFinalMetrics
  split
  · simp
  · exact trackEvent_len _ _

theorem trackPageView_destroyed (s : TrackerState)
    (h : s.isDestroyed = true) : trackPageView s = (s, []) := by
  simp [trackPageView, h]

theorem refreshSession_destroyed (s : TrackerState) (vis : Bool) (now : ℚ) (ok : Bool)
    (h : s.isDestroyed = true) : refreshSession s vis now ok = (s, []) := by
  simp [refreshSession, h]

theorem step_destroyed (s : TrackerState) (op : Op) (h : s.isDestroyed = true) :
    (step s op).1.isDestroyed = true ∧ (step s op).2 = [] := by
  cases op with
  | callerTrack e => simp [step, trackEvent_destroyed _ _ h, h]
  | timerRefresh vis now ok =>
      cases hi : s.intervalSet <;>
        simp [step, hi, refreshSession_destroyed _ _ _ _ h, h]
  | hashChange =>
      cases hi : s.hashListenerAttached <;>
        simp [step, hi, trackPageView_destroyed _ h, h]
  | domMutation path =>
      cases hm : s.mutationConnected <;> simp [step, hm, h]
  | pageHidden env =>
      exact ⟨by simp only [step, sendFinalMetrics_fst_isDestroyed]; exact h,
        by simp only [step]; exact sendFinalMetrics_destroyed_dispatch _ _ h⟩
  | pageUnload env =>
      have h1 : (sendFinalMetrics env s).1.isDestroyed = true := by
        rw [sendFinalMetrics_fst_isDestroyed]; exact h
      constructor
      · simp only [step, trackEvent_destroyed _ _ h1]; exact h1
      · simp only [step, trackEvent_destroyed _ _ h1,
          sendFinalMetrics_destroyed_dispatch _ _ h, List.append_nil]
  | paintEntry entryName t =>
      cases ho : s.observersConnected <;> simp [step, onPerf, ho, h]
  | lcpEntry t =>
      cases ho : s.observersConnected <;> simp [step, onPerf, ho, h]
  | layoutShift entries =>
      cases ho : s.observersConnected <;> simp [step, onPerf, ho, h]
  | interactionBatch durations =>
      cases ho : s.observersConnected <;> simp [step, onPerf, ho, h]
  | longTask d =>
      cases ho : s.observersConnected <;> simp [step, onPerf, ho, h]
  | resourceEntry r =>
      cases ho : s.observersConnected <;> simp [step, onPerf, ho, h]
  | navTimings a b c d =>
      cases ho : s.observersConnected <;> simp [step, onPerf, ho, h]

theorem runOps_destroyed (ops : List Op) :
    ∀ s : TrackerState, s.isDestroyed = true → (runOps s ops).2 = [] := by
  induction ops with
  | nil => intro s h; rfl
  | cons op rest ih =>
      intro s h
      have hs := step_destroyed s op h
      simp [runOps, hs.2, ih _ hs.1]

theorem destroyTracker_isDestroyed (env : Env) (s : TrackerState) :
    (destroyTracker env s).1.isDestroyed = true := by
  unfold destroyTracker
  rw [sendFinalMetrics_fst_isDestroyed]

theorem runFinalTriggers_sent (envs : List Env) :
    ∀ s : TrackerState, s.perf.finalMetricsSent = true →
      runFinalTriggers s envs = (s, []) := by
  induction envs with
  | nil => intro s _; rfl
  | cons env rest ih =>
      intro s h
      simp [runFinalTriggers, sendFinalMetrics_sent env s h, ih s h]

theorem runFinalTriggers_len (envs : List Env) :
    ∀ s : TrackerState, (runFinalTriggers s envs).2.length ≤ 1 := by
  induction envs with
  | nil => intro s; simp [runFinalTriggers]
  | cons env rest ih =>
      intro s
      by_cases h : s.perf.finalMetricsSent = true
      · simp [runFinalTriggers, sendFinalMetrics_sent env s h]
        exact ih s
      · have hrest := runFinalTriggers_sent rest (sendFinalMetrics env s).1
          (sendFinalMetrics_flag env s)
        simp [runFinalTriggers, hrest]
        exact sendFinalMetrics_len env s

theorem observeINP_invariant (p : PerfState) (durations : List ℚ) :
    (observeINP p durations).interactionTimes ≠ [] →
      (observeINP p durations).metrics.inp
        = percentileINP ((observeINP p durations).interactionTimes) := by
  intro hne
  rw [observeINP_times] at hne
  unfold observeINP
  by_cases hlen : (p.interactionTimes ++ durations).length > 0
  · simp only [if_pos hlen, observeINP_times, percentileINP]
  · exact absurd (List.length_pos.mpr hne) (by simpa using hlen)

theorem foldINP_times (batches : List (List ℚ)) :
    ∀ p : PerfState,
      (batches.foldl observeINP p).interactionTimes
        = p.interactionTimes ++ batches.flatten := by
  induction batches with
  | nil => intro p; simp
  | cons b rest ih =>
      intro p
      simp [List.foldl_cons, ih, observeINP_times, List.append_assoc]

theorem foldINP_inv (batches : List (List ℚ)) :
    ∀ p : PerfState,
      (p.interactionTimes ≠ [] → p.metrics.inp = percentileINP p.interactionTimes) →
      ((batches.foldl observeINP p).interactionTimes ≠ [] →
        (batches.foldl observeINP p).metrics.inp
          = percentileINP (batches.foldl observeINP p).interactionTimes) := by
  induction batches with
  | nil => intro p hp; exact hp
  | cons b rest ih => intro p _; exact ih _ (observeINP_invariant p b)

/-! ## The claims -/

/-- Claim C1, counterexample: for the two layout-shift entries with values
[0.1, 0.2] at times [500, 1300], neither flagged, the code reports
CLS = 0.2 (the loop's tracked grouping start is 0, never the first entry's
startTime, so the gap test `1300 - 0 < 1000` fails and the entries land in
separate groupings) while the claim's grouping rule (gap from the grouping's
start, here 500, does not exceed 1000 ms) puts both in one grouping and
yields 0.3. -/
theorem C1_counterexample :
    (observeCLSBatch initialPerf
        [⟨500, 1/10, false⟩, ⟨1300, 2/10, false⟩]).metrics.cls = 1/5 ∧
    claimCLS [⟨500, 1/10, false⟩, ⟨1300, 2/10, false⟩] = 3/10 ∧
    (1/5 : ℚ) ≠ 3/10 := by
  refine ⟨?_, ?_, by norm_num⟩
  · norm_num [observeCLSBatch, observeCLSEntry, updateCLS, calculateMaxSessionGap,
      clsFinish, clsStep, sessionValueSum, jsMax, initialPerf, initialMetrics,
      List.cons_ne_nil]
  · norm_num [claimCLS, claimGroupsAux, groupMaxFrom, sessionValueSum, jsMax]

/-- Claim C1, amended: for every sequence of layout-shift entries processed
in arrival order, with entries flagged "had recent input" excluded, the
reported CLS equals the maximum (at least 0) over groupings of the sum of
entry values within a grouping, where the first grouping's tracked start is
time 0, an entry joins the current grouping exactly when the grouping is
empty or its startTime minus the tracked start is strictly less than 1000 ms,
and otherwise begins a new grouping whose tracked start is that entry's
startTime; in particular, for values [0.1, 0.2] at times [0, 500] followed by
[0.05] at time 2000, CLS = 0.3. -/
theorem C1_amended_grouping :
    (∀ entries : List ShiftEntry,
        (observeCLSBatch initialPerf entries).metrics.cls
          = amendedCLS (entries.filter (fun e => !e.hadRecentInput))) ∧
    (observeCLSBatch initialPerf
        [⟨0, 1/10, false⟩, ⟨500, 2/10, false⟩, ⟨2000, 1/20, false⟩]).metrics.cls
      = 3/10 := by
  have base : initialPerf.metrics.cls = calculateMaxSessionGap initialPerf.clsEntries := by
    norm_num [initialPerf, initialMetrics, calculateMaxSessionGap, clsFinish,
      sessionValueSum, jsMax]
  constructor
  · intro entries
    obtain ⟨h1, h2⟩ := observeCLSBatch_invariant entries initialPerf base
    rw [h2, h1]
    have : initialPerf.clsEntries = [] := rfl
    rw [this, List.nil_append, calculateMaxSessionGap_eq_amendedCLS]
  · norm_num [observeCLSBatch, observeCLSEntry, updateCLS, calculateMaxSessionGap,
      clsFinish, clsStep, sessionValueSum, jsMax, initialPerf, initialMetrics,
      List.cons_ne_nil]

/-- Claim C2 (confirmed): on initialization with both storage writes
succeeding, if the persisted session id is absent (or empty, which the code's
falsy check treats the same) or the persisted expiration is absent or parses
to a number that is not in the future, then a new sessionId is generated, the
expiration becomes now + SESSION_DURATION, both are persisted, and exactly one
session-start event is dispatched with no page-view; if a persisted, non-empty
session id exists and its expiration parses to a number in the future, that
sessionId is reused, the store is unchanged, and exactly one page-view event
is dispatched with no session-start. -/
theorem C2_initializeSession (st : Store) (now : ℚ) (nsid : String) (qn : ℕ) :
    ((nsid ≠ "" ∧ (sidMissing st.sessionId = true ∨ st.expiration = none ∨
        ∃ v : ℚ, st.expiration = some (some v) ∧ v ≤ now)) →
      (initializeSession st now nsid qn true true).store
          = { sessionId := some nsid, expiration := some (some (now + SESSION_DURATION)) } ∧
      (initializeSession st now nsid qn true true).session
          = some ⟨nsid, some (now + SESSION_DURATION), now⟩ ∧
      countEv .sessionStart (initializeSession st now nsid qn true true).events = 1 ∧
      countEv .pageView (initializeSession st now nsid qn true true).events = 0) ∧
    (∀ (sid : String) (v : ℚ), st.sessionId = some sid → sid ≠ "" →
        st.expiration = some (some v) → now < v →
      (initializeSession st now nsid qn true true).store = st ∧
      (initializeSession st now nsid qn true true).session = some ⟨sid, some v, now⟩ ∧
      countEv .pageView (initializeSession st now nsid qn true true).events = 1 ∧
      countEv .sessionStart (initializeSession st now nsid qn true true).events = 0) := by
  constructor
  · rintro ⟨hn, hcase⟩
    have hnew : needsNewSession st now = true := by
      rcases hcase with hs | he | ⟨v, hv, hle⟩
      · simp [needsNewSession, hs]
      · simp [needsNewSession, he]
      · simp [needsNewSession, isSessionExpired, hv, hle]
    simp [initializeSession, hnew, hn, countEv, countEv_replicate]
  · intro sid v hsid hne hv hfut
    have h1 : sidMissing st.sessionId = false := by
      rw [hsid]; simp [sidMissing, hne]
    have h2 : isSessionExpired now (some v) = false := by
      simp [isSessionExpired]; exact hfut
    have hnew : needsNewSession st now = false := by
      simp [needsNewSession, h1, hv, h2]
    simp [initializeSession, hnew, hsid, hv, hne, countEv, countEv_replicate]

/-- Claim C3 (confirmed): over any sequence of final-flush triggers (page
hidden / page unload, in any combination), once the one-shot
`finalMetricsSent` flag is set no trigger dispatches anything, and from any
starting state at most one event is dispatched in total. -/
theorem C3_final_flush_once (s : TrackerState) (envs : List Env) :
    (s.perf.finalMetricsSent = true → (runFinalTriggers s envs).2 = []) ∧
    (runFinalTriggers s envs).2.length ≤ 1 :=
  ⟨fun h => by rw [runFinalTriggers_sent envs s h], runFinalTriggers_len envs s⟩

/-- Claim C3, witness: with the flag already set, two further triggers
dispatch nothing. -/
theorem C3_witness :
    (runFinalTriggers sentTracker [sampleEnv, sampleEnv]).2 = [] :=
  (C3_final_flush_once sentTracker [sampleEnv, sampleEnv]).1 rfl

/-- Claim C4 (confirmed): `refreshSession` never dispatches an event; it is a
complete no-op when the page is not foreground-visible or the tracker is
destroyed, and also whenever the storage write fails — only a successful write
updates the persisted expiration and the in-memory expiration (to
now + SESSION_DURATION), leaving the persisted session id untouched. -/
theorem C4_refreshSession (s : TrackerState) (docVisible : Bool) (now : ℚ)
    (writeOk : Bool) :
    (refreshSession s docVisible now writeOk).2 = [] ∧
    ((docVisible = false ∨ s.isDestroyed = true) →
      (refreshSession s docVisible now writeOk).1 = s) ∧
    (writeOk = false → (refreshSession s docVisible now writeOk).1 = s) ∧
    (docVisible = true → s.isDestroyed = false → writeOk = true →
      (refreshSession s docVisible now writeOk).1.store.expiration
          = some (some (now + SESSION_DURATION)) ∧
      (refreshSession s docVisible now writeOk).1.store.sessionId = s.store.sessionId ∧
      ∀ ss : Session, s.session = some ss →
        (refreshSession s docVisible now writeOk).1.session
          = some { ss with expirationTime := some (now + SESSION_DURATION) }) := by
  cases hv : docVisible <;> cases hd : s.isDestroyed <;> cases hw : writeOk <;>
    simp [refreshSession, hv, hd, hw]
  exact fun ss hss => by simp [hss]

/-- Claim C4, witness: a failing write with the page visible on a live
tracker leaves the state untouched. -/
theorem C4_witness :
    (refreshSession readyTracker true 5 false).1 = readyTracker ∧
    (refreshSession readyTracker true 5 false).2 = [] :=
  ⟨(C4_refreshSession readyTracker true 5 false).2.2.1 rfl,
    (C4_refreshSession readyTracker true 5 false).1⟩

/-- Claim C5 (confirmed): once `destroy()` has run, no subsequent sequence of
event-loop callbacks — caller `track()` calls, refresh-timer ticks,
navigation signals, the page-hidden / page-unload triggers, or
performance-observer batches — dispatches any event. -/
theorem C5_no_dispatch_after_destroy (env : Env) (s : TrackerState) (ops : List Op) :
    (runOps (destroyTracker env s).1 ops).2 = [] :=
  runOps_destroyed ops _ (destroyTracker_isDestroyed env s)

/-- Claim C6, counterexample: destroying a live tracker whose final flush has
not yet fired (session present, nothing sent) dispatches nothing at all —
`destroy()` sets `isDestroyed` before `performanceTracker.destroy()` calls
`sendFinalMetrics`, so the `web-vitals` dispatch inside `trackEvent` is
suppressed even though the one-shot flag does get set. -/
theorem C6_counterexample :
    readyTracker.isDestroyed = false ∧
    readyTracker.perf.finalMetricsSent = false ∧
    readyTracker.session = some ⟨"s1", some 999999, 0⟩ ∧
    (destroyTracker sampleEnv readyTracker).2 = [] ∧
    (destroyTracker sampleEnv readyTracker).1.perf.finalMetricsSent = true := by
  refine ⟨rfl, rfl, rfl, ?_, ?_⟩
  · exact sendFinalMetrics_destroyed_dispatch sampleEnv _ rfl
  · exact sendFinalMetrics_flag sampleEnv _

/-- Claim C6, amended: if `destroy()` is invoked while the final-metrics
flush has not yet occurred, the destruction sequence triggers the flush once
more — the one-shot flag becomes set — but no web-vitals event is dispatched,
because `destroy()` sets the destroyed flag before the flush and `trackEvent`
drops the event; if the flush already occurred, destruction performs no
additional flush and the metric state is unchanged. In neither case does
destruction dispatch anything. -/
theorem C6_amended_destroy_flush (env : Env) (s : TrackerState) :
    (destroyTracker env s).2 = [] ∧
    (destroyTracker env s).1.perf.finalMetricsSent = true ∧
    (s.perf.finalMetricsSent = true → (destroyTracker env s).1.perf = s.perf) := by
  unfold destroyTracker
  refine ⟨sendFinalMetrics_destroyed_dispatch _ _ rfl, sendFinalMetrics_flag _ _,
    fun h => ?_⟩
  simp [sendFinalMetrics, h]

/-- Claim C7 (confirmed): for every sequence of interaction batches, the full
duration history accumulates in arrival order, and after each batch (whenever
the history is non-empty) the reported INP is the element at index
floor(n * 0.75) of the history sorted ascending; in particular durations
[10, 50, 100, 40] yield INP = 100. -/
theorem C7_inp_percentile (batches : List (List ℚ)) :
    (batches.foldl observeINP initialPerf).interactionTimes = batches.flatten ∧
    (batches.flatten ≠ [] →
      (batches.foldl observeINP initialPerf).metrics.inp
        = percentileINP batches.flatten) ∧
    (([[10, 50, 100, 40]] : List (List ℚ)).foldl observeINP initialPerf).metrics.inp
      = 100 := by
  have ht : (batches.foldl observeINP initialPerf).interactionTimes = batches.flatten := by
    have := foldINP_times batches initialPerf
    simpa [initialPerf] using this
  refine ⟨ht, fun hne => ?_, ?_⟩
  · have hinv := foldINP_inv batches initialPerf (fun h => absurd rfl h)
    rw [ht] at hinv
    exact hinv hne
  · norm_num [observeINP, initialPerf, initialMetrics, sortAsc, insertAsc,
      percentileINP, List.getD]

/-- Claim C8, counterexample: with page origin "http://a.co", the referrer
"http://a.co.evil/p" is neither absent nor of the same origin (its origin is
"http://a.co.evil"), yet the code classifies it "Direct", because
`startsWith` tests a string prefix, not origin equality. -/
theorem C8_counterexample :
    composedReferrer "http://a.co.evil/p" "http://a.co" = "Direct" ∧
    ("http://a.co.evil/p" : String) ≠ "" ∧
    urlOrigin "http://a.co.evil/p" ≠ "http://a.co" ∧
    claimReferrerField "http://a.co.evil/p" "http://a.co" = "http://a.co.evil/p" := by
  refine ⟨by decide, by decide, by decide, by decide⟩

/-- Claim C8, amended: the composed event's referrer field is "Direct"
exactly in the cases the code tests — the referrer string is empty, or it
starts with the page origin string — and is the referrer string verbatim
otherwise. -/
theorem C8_amended_referrer (docReferrer origin : String) :
    (docReferrer = "" → composedReferrer docReferrer origin = "Direct") ∧
    (jsStartsWith docReferrer origin = true →
      composedReferrer docReferrer origin = "Direct") ∧
    (docReferrer ≠ "" → jsStartsWith docReferrer origin = false →
      composedReferrer docReferrer origin = docReferrer) := by
  refine ⟨fun h => ?_, fun h => ?_, fun h1 h2 => ?_⟩
  · by_cases hs : jsStartsWith docReferrer origin
    · simp [composedReferrer, classifyReferrer, hs]
    · simp [composedReferrer, classifyReferrer, hs, h]
  · simp [composedReferrer, classifyReferrer, h]
  · simp [composedReferrer, classifyReferrer, h1, h2]

/-- Claim C9, counterexample: initialization over an expired stored session
("old", expiring at 500, now = 1000) in which the sessionId write succeeds
and the expiration write fails leaves the store holding the freshly generated
sessionId "fresh" next to the stale expiration 500 — the two persisted
entries are not updated together. -/
theorem C9_counterexample :
    needsNewSession { sessionId := some "old", expiration := some (some 500) } 1000
      = true ∧
    (initializeSession { sessionId := some "old", expiration := some (some 500) }
        1000 "fresh" 0 true false).store
      = { sessionId := some "fresh", expiration := some (some 500) } ∧
    (500 : ℚ) ≠ 1000 + SESSION_DURATION := by
  have hnew : needsNewSession
      { sessionId := some "old", expiration := some (some 500) } 1000 = true := by
    norm_num [needsNewSession, sidMissing, isSessionExpired]
  refine ⟨hnew, ?_, by norm_num [SESSION_DURATION]⟩
  simp [initializeSession, hnew]

/-- Claim C9, amended: the two persisted entries are written sequentially
during initialization, not atomically: when no new session is needed, or when
the sessionId write fails, the store is unchanged; when the sessionId write
succeeds and the expiration write fails, the store holds the new sessionId
paired with the previous expiration; only when both writes succeed are the
two entries updated together. -/
theorem C9_amended_store_writes (st : Store) (now : ℚ) (nsid : String) (qn : ℕ)
    (ok1 ok2 : Bool) :
    (needsNewSession st now = false →
      (initializeSession st now nsid qn ok1 ok2).store = st) ∧
    (ok1 = false → (initializeSession st now nsid qn ok1 ok2).store = st) ∧
    (needsNewSession st now = true → ok1 = true → ok2 = false →
      (initializeSession st now nsid qn ok1 ok2).store
        = { sessionId := some nsid, expiration := st.expiration }) ∧
    (needsNewSession st now = true → ok1 = true → ok2 = true →
      (initializeSession st now nsid qn ok1 ok2).store
        = { sessionId := some nsid,
            expiration := some (some (now + SESSION_DURATION)) }) := by
  cases hn : needsNewSession st now <;> cases ho1 : ok1 <;> cases ho2 : ok2 <;>
    simp [initializeSession, hn, ho1, ho2]

/-- Claim C10 (confirmed): when the persisted expiration is a truthy string
that does not parse to a number (parseInt yields NaN) and a non-empty session
id is stored, `isSessionExpired` is false (`now >= NaN` is false), so
initialization resumes the stored session with an in-memory expirationTime of
NaN, leaves the store unchanged, and dispatches exactly one page-view and no
session-start. -/
theorem C10_nan_expiration (sid nsid : String) (now : ℚ) (qn : ℕ) (h : sid ≠ "") :
    isSessionExpired now none = false ∧
    (initializeSession ⟨some sid, some none⟩ now nsid qn true true).session
        = some ⟨sid, none, now⟩ ∧
    (initializeSession ⟨some sid, some none⟩ now nsid qn true true).store
        = ⟨some sid, some none⟩ ∧
    countEv .pageView
      (initializeSession ⟨some sid, some none⟩ now nsid qn true true).events = 1 ∧
    countEv .sessionStart
      (initializeSession ⟨some sid, some none⟩ now nsid qn true true).events = 0 := by
  have hnew : needsNewSession ⟨some sid, some none⟩ now = false := by
    simp [needsNewSession, sidMissing, isSessionExpired, h]
  refine ⟨rfl, ?_, ?_, ?_, ?_⟩ <;>
    simp [initializeSession, hnew, h, countEv, countEv_replicate]

/-- Claim C10, witness: the stored session "abc" with a NaN expiration is
resumed at time 5 with NaN kept in memory, and one page-view is dispatched. -/
theorem C10_witness :
    isSessionExpired 5 none = false ∧
    (initializeSession ⟨some "abc", some none⟩ 5 "zz" 2 true true).session
        = some ⟨"abc", none, 5⟩ ∧
    (initializeSession ⟨some "abc", some none⟩ 5 "zz" 2 true true).store
        = ⟨some "abc", some none⟩ ∧
    countEv .pageView
      (initializeSession ⟨some "abc", some none⟩ 5 "zz" 2 true true).events = 1 ∧
    countEv .sessionStart
      (initializeSession ⟨some "abc", some none⟩ 5 "zz" 2 true true).events = 0 :=
  C10_nan_expiration "abc" "zz" 5 2 (by decide)

end Lynq
